import Mathlib

/-!
Verification development for `alpha_assistant.py`, the command dispatch and
multi-turn dialogue engine of the Alpha voice assistant.

The Python source is shallowly embedded: the string primitives used by the
dispatcher (`in`, `str.replace(old, "")`, `str.strip()`, `str.lower()`) are
modelled on `List Char` / `String` (ASCII model for `lower`, the standard
whitespace set for `strip`), the keyword cascade of `parse_and_execute` is
embedded as a chain of if-then-else tests in source order, and the side
effects of a turn (capability handler invocations and spoken prompts) are
reified as data in a `TurnResult`.  Follow-up inputs acquired mid-turn via
`take_command()` / `input()` are supplied as an explicit response stream.
-/

namespace Alpha

/-- Python's default whitespace set for `str.strip()`:
space, tab, newline, carriage return, vertical tab, form feed. -/
def isPySpace (c : Char) : Bool :=
  c.toNat = 32 || c.toNat = 9 || c.toNat = 10 || c.toNat = 13 ||
    c.toNat = 11 || c.toNat = 12

/-- Model of Python `str.strip()` on the character list: drop leading and
trailing whitespace. -/
def stripChars (l : List Char) : List Char :=
  ((l.dropWhile isPySpace).reverse.dropWhile isPySpace).reverse

/-- Model of Python `str.strip()`. -/
def pyStrip (s : String) : String :=
  ⟨stripChars s.data⟩

/-- Model of Python `str.lower()` (ASCII model, matching `Char.toLower`):
map every character through `Char.toLower`. -/
def pyLower (s : String) : String :=
  ⟨s.data.map Char.toLower⟩

/-- Model of Python's substring test `pat in s` on character lists:
`pat` occurs contiguously in `l`. -/
def containsL (pat : List Char) : List Char → Bool
  | [] => pat.isEmpty
  | c :: cs => pat.isPrefixOf (c :: cs) || containsL pat cs

/-- Model of Python's substring test `pat in s`. -/
def pyIn (pat s : String) : Bool :=
  containsL pat.data s.data

/-- Fuel-indexed worker for `str.replace(old, "")`: scan left to right,
removing each (non-overlapping) occurrence of `old` and continuing after
the removed segment, exactly as CPython's `replace` does.  The fuel is
always instantiated with the list length, which suffices for `old ≠ []`
(the only case the assistant uses). -/
def removeAllAux (old : List Char) : Nat → List Char → List Char
  | 0, l => l
  | _ + 1, [] => []
  | n + 1, c :: cs =>
    if old.isPrefixOf (c :: cs) then
      removeAllAux old n (cs.drop (old.length - 1))
    else
      c :: removeAllAux old n cs

/-- Model of Python `s.replace(old, "")` for non-empty `old`. -/
def pyReplaceE (s old : String) : String :=
  ⟨removeAllAux old.data s.data.length s.data⟩

/-- The fixed set of intents of the assistant, one per branch of the
keyword cascade in `parse_and_execute`, plus the fallback. -/
inductive Intent
  | exit | tellTime | tellDate | identify | help
  | wikiLookup | webSearch | sendEmail | screenshot | systemStatus
  | remember | recallMemory | playSong | joke | fallbackSearch
  deriving DecidableEq, Repr

/-- A capability handler invocation, recorded with the slot values the
dispatcher passes to it. -/
inductive HandlerCall
  | tellTime
  | tellDate
  | wikiLookup (term : String)
  | searchChrome (q : String)
  | sendEmail (toAddr subject body : String)
  | screenshot
  | cpuStatus
  | rememberNote (note : String)
  | readMem
  | playSong (song : String)
  | joke
  deriving DecidableEq, Repr

/-- Observable result of one `parse_and_execute` call: the returned
boolean (continue the main loop), the capability handlers invoked with
their slots, and the messages spoken by the dispatcher itself (prompts
and notices; messages spoken inside handlers are not recorded here). -/
structure TurnResult where
  continueLoop : Bool
  handlers : List HandlerCall
  spoken : List String
  deriving DecidableEq, Repr

/-- Exit predicate: `any(w in query for w in ("exit","quit","bye","goodbye"))`. -/
def condExit (q : String) : Bool :=
  pyIn "exit" q || pyIn "quit" q || pyIn "bye" q || pyIn "goodbye" q

/-- `"time" in query`. -/
def condTime (q : String) : Bool := pyIn "time" q

/-- `"date" in query`. -/
def condDate (q : String) : Bool := pyIn "date" q

/-- `"your name" in query or "what is your name" in query`. -/
def condName (q : String) : Bool :=
  pyIn "your name" q || pyIn "what is your name" q

/-- `"how can you help" in query or "how can you help me" in query`. -/
def condHelp (q : String) : Bool :=
  pyIn "how can you help" q || pyIn "how can you help me" q

/-- `"wikipedia" in query`. -/
def condWiki (q : String) : Bool := pyIn "wikipedia" q

/-- `"search" in query or "search in chrome" in query or "google" in query`. -/
def condSearch (q : String) : Bool :=
  pyIn "search" q || pyIn "search in chrome" q || pyIn "google" q

/-- `"send email" in query or "email" in query`. -/
def condEmail (q : String) : Bool :=
  pyIn "send email" q || pyIn "email" q

/-- `"screenshot" in query or "screen shot" in query`. -/
def condScreenshot (q : String) : Bool :=
  pyIn "screenshot" q || pyIn "screen shot" q

/-- `"cpu" in query or "battery" in query`. -/
def condCpu (q : String) : Bool :=
  pyIn "cpu" q || pyIn "battery" q

/-- `"remember that" in query or "remember" in query`. -/
def condRemember (q : String) : Bool :=
  pyIn "remember that" q || pyIn "remember" q

/-- `"do you know anything" in query or "what do you remember" in query
or "what did i tell you" in query`. -/
def condRecall (q : String) : Bool :=
  pyIn "do you know anything" q || pyIn "what do you remember" q ||
    pyIn "what did i tell you" q

/-- `"play" in query or "play song" in query`. -/
def condPlay (q : String) : Bool :=
  pyIn "play" q || pyIn "play song" q

/-- `"joke" in query`. -/
def condJoke (q : String) : Bool := pyIn "joke" q

/-- Slot extraction for the Wikipedia branch:
`query.replace("wikipedia", "").strip()`. -/
def extract_wiki (q : String) : String :=
  pyStrip (pyReplaceE q "wikipedia")

/-- Slot extraction for the web-search branch:
`query.replace("search in chrome", "").replace("search", "").replace("google", "").strip()`. -/
def extract_search (q : String) : String :=
  pyStrip (pyReplaceE (pyReplaceE (pyReplaceE q "search in chrome") "search") "google")

/-- Slot extraction for the play-song branch:
`query.replace("play", "").replace("play song", "").strip()`. -/
def extract_play (q : String) : String :=
  pyStrip (pyReplaceE (pyReplaceE q "play") "play song")

/-- The pure intent matcher: the priority-ordered keyword cascade of
`parse_and_execute`, branch conditions in source order. -/
def match_intent (q : String) : Intent :=
  if condExit q then .exit
  else if condTime q then .tellTime
  else if condDate q then .tellDate
  else if condName q then .identify
  else if condHelp q then .help
  else if condWiki q then .wikiLookup
  else if condSearch q then .webSearch
  else if condEmail q then .sendEmail
  else if condScreenshot q then .screenshot
  else if condCpu q then .systemStatus
  else if condRemember q then .remember
  else if condRecall q then .recallMemory
  else if condPlay q then .playSong
  else if condJoke q then .joke
  else .fallbackSearch

/-- Embedding of `parse_and_execute(query)`.  `responses` is the stream of
strings returned by the follow-up input calls (`take_command()` and, for the
email recipient, `input(...)` before its `.strip()`), consumed in order. -/
def parse_and_execute (query : String) (responses : List String) : TurnResult :=
  if query = "" then ⟨true, [], []⟩
  else if condExit query then
    ⟨false, [], ["Goodbye. Have a nice day."]⟩
  else if condTime query then ⟨true, [.tellTime], []⟩
  else if condDate query then ⟨true, [.tellDate], []⟩
  else if condName query then ⟨true, [], ["My name is Alpha."]⟩
  else if condHelp query then
    ⟨true, [], ["I can tell time, take screenshots, send email, search the web, play songs and more."]⟩
  else if condWiki query then
    if extract_wiki query = "" then
      ⟨true, [.wikiLookup (responses.headD "")],
        ["What would you like me to search on Wikipedia?"]⟩
    else ⟨true, [.wikiLookup (extract_wiki query)], []⟩
  else if condSearch query then
    if extract_search query = "" then
      ⟨true, [.searchChrome (responses.headD "")], ["What should I search for?"]⟩
    else ⟨true, [.searchChrome (extract_search query)], []⟩
  else if condEmail query then
    let subject := responses.headD ""
    let body := responses.tail.headD ""
    if pyIn "@" subject && pyIn "." subject && !(pyIn " " subject) then
      ⟨true, [.sendEmail subject "No subject" body],
        ["What should be the subject?", "What should I say in the email?"]⟩
    else
      ⟨true, [.sendEmail (pyStrip (responses.tail.tail.headD "")) subject body],
        ["What should be the subject?", "What should I say in the email?",
         "Who should I send it to? Please type the email address."]⟩
  else if condScreenshot query then ⟨true, [.screenshot], []⟩
  else if condCpu query then ⟨true, [.cpuStatus], []⟩
  else if condRemember query then
    ⟨true, [.rememberNote (responses.headD "")], ["What should I remember?"]⟩
  else if condRecall query then ⟨true, [.readMem], []⟩
  else if condPlay query then
    if extract_play query = "" then
      ⟨true, [.playSong (responses.headD "")], ["Which song should I play?"]⟩
    else ⟨true, [.playSong (extract_play query)], []⟩
  else if condJoke query then ⟨true, [.joke], []⟩
  else
    ⟨true, [.searchChrome query],
      ["I did not understand exactly. I will search the web for you."]⟩

/-- The two states of the session loop in `main()`. -/
inductive SessionState
  | running
  | terminated
  deriving DecidableEq, Repr

/-- One step of the session loop in `main()`: `keep_running =
parse_and_execute(query)`; the loop terminates exactly when
`parse_and_execute` returns `False`. -/
def sessionStep (query : String) (responses : List String) : SessionState :=
  if (parse_and_execute query responses).continueLoop then .running else .terminated

/-- Outcome of the primary (voice) input channel in `take_command`:
a successful transcription, or one of the failure modes that all funnel
to the typed fallback (`WaitTimeoutError`, `UnknownValueError`,
`RequestError`, or any other exception). -/
inductive PrimaryResult
  | recognized (text : String)
  | waitTimeout
  | unknownValue
  | requestError
  | otherError
  deriving DecidableEq, Repr

/-- Embedding of `take_command()`: on a successful transcription the code
returns `query.lower()`; on every failure path it returns
`input("Type command: ").strip().lower()` where `typed` is the text the
user types. -/
def take_command (primary : PrimaryResult) (typed : String) : String :=
  match primary with
  | .recognized t => pyLower t
  | _ => pyLower (pyStrip typed)

/-- Result of `send_email`: the returned boolean, the messages spoken, and
whether an SMTP connection was attempted. -/
structure SendEmailResult where
  ok : Bool
  spoken : List String
  smtpAttempted : Bool
  deriving DecidableEq, Repr

/-- Python truthiness test `not x` for `os.getenv` results: the variable is
absent (`None`) or empty. -/
def envFalsy : Option String → Bool
  | none => true
  | some s => s = ""

/-- Embedding of `send_email(to_address, subject, body)`.  `emailUser` and
`emailPass` are the values of the `EMAIL_USER` / `EMAIL_PASS` environment
variables; `smtpOk` abstracts whether the SMTP transaction (wrapped in
`try/except` in the source) succeeds. -/
def send_email (emailUser emailPass : Option String)
    (_toAddress _subject _body : String) (smtpOk : Bool) : SendEmailResult :=
  if envFalsy emailUser || envFalsy emailPass then
    ⟨false,
      ["Email credentials are not configured. Please set EMAIL_USER and EMAIL_PASS environment variables."],
      false⟩
  else if smtpOk then ⟨true, ["Email sent successfully."], true⟩
  else ⟨false, ["Failed to send the email. Check the log for details."], true⟩

/-- Embedding of `remember_to_file(note)` on its success path: the memory
file (modelled as `Option String`, `none` when absent) is overwritten
wholesale with the note. -/
def remember_to_file (note : String) (_file : Option String) : Option String :=
  some note

/-- Embedding of `read_memory()` on its success path: the list of messages
spoken, as a function of the memory file contents. -/
def read_memory : Option String → List String
  | none => ["I have nothing saved yet."]
  | some content =>
    if pyStrip content ≠ "" then
      ["You asked me to remember the following:", pyStrip content]
    else
      ["The memory file is empty."]

/-- Disjunction of all fourteen keyword predicates: some branch before the
fallback matches. -/
def matchesSome (q : String) : Bool :=
  condExit q || condTime q || condDate q || condName q || condHelp q ||
    condWiki q || condSearch q || condEmail q || condScreenshot q ||
    condCpu q || condRemember q || condRecall q || condPlay q || condJoke q

/-- The predicates tested before the Wikipedia branch. -/
def condsBeforeWiki (q : String) : Bool :=
  condExit q || condTime q || condDate q || condName q || condHelp q

/-- The predicates tested before the web-search branch. -/
def condsBeforeSearch (q : String) : Bool :=
  condsBeforeWiki q || condWiki q

/-- The predicates tested before the email branch. -/
def condsBeforeEmail (q : String) : Bool :=
  condsBeforeSearch q || condSearch q

/-- The predicates tested before the remember branch. -/
def condsBeforeRemember (q : String) : Bool :=
  condsBeforeEmail q || condEmail q || condScreenshot q || condCpu q

/-- The predicates tested before the recall-memory branch. -/
def condsBeforeRecall (q : String) : Bool :=
  condsBeforeRemember q || condRemember q

/-- The predicates tested before the play-song branch. -/
def condsBeforePlay (q : String) : Bool :=
  condsBeforeRecall q || condRecall q

theorem isPrefixOf_iff (p l : List Char) :
    p.isPrefixOf l = true ↔ ∃ t, p ++ t = l := by
  induction p generalizing l with
  | nil => simp [List.isPrefixOf]
  | cons a as ih =>
    cases l with
    | nil => simp [List.isPrefixOf]
    | cons b bs =>
      simp only [List.isPrefixOf, Bool.and_eq_true, beq_iff_eq, ih, List.cons_append,
        List.cons.injEq]
      constructor
      · rintro ⟨rfl, t, rfl⟩
        exact ⟨t, rfl, rfl⟩
      · rintro ⟨t, rfl, rfl⟩
        exact ⟨rfl, t, rfl⟩

theorem containsL_iff (pat l : List Char) :
    containsL pat l = true ↔ ∃ s t, l = s ++ pat ++ t := by
  induction l with
  | nil =>
    cases pat with
    | nil => simp [containsL]
    | cons c cs => simp [containsL]
  | cons c cs ih =>
    simp only [containsL, Bool.or_eq_true, isPrefixOf_iff, ih]
    constructor
    · rintro (⟨t, ht⟩ | ⟨s, t, rfl⟩)
      · exact ⟨[], t, by simpa using ht.symm⟩
      · exact ⟨c :: s, t, rfl⟩
    · rintro ⟨s, t, hst⟩
      cases s with
      | nil => exact Or.inl ⟨t, by simpa using hst.symm⟩
      | cons d ds =>
        simp only [List.cons_append, List.cons.injEq] at hst
        exact Or.inr ⟨ds, t, hst.2⟩

theorem containsL_trans {x y z : List Char} (hxy : containsL x y = true)
    (hyz : containsL y z = true) : containsL x z = true := by
  rw [containsL_iff] at hxy hyz ⊢
  obtain ⟨s, t, rfl⟩ := hxy
  obtain ⟨u, v, rfl⟩ := hyz
  exact ⟨u ++ s, t ++ v, by simp⟩

theorem pyIn_trans {x y z : String} (hxy : pyIn x y = true)
    (hyz : pyIn y z = true) : pyIn x z = true :=
  containsL_trans hxy hyz

theorem removeAllAux_eq_self {old : List Char} :
    ∀ (n : Nat) (l : List Char), l.length ≤ n → containsL old l = false →
      removeAllAux old n l = l := by
  intro n
  induction n with
  | zero => intro l _ _; rfl
  | succ n ih =>
    intro l hl hc
    cases l with
    | nil => rfl
    | cons c cs =>
      have hcs : (old.isPrefixOf (c :: cs)) = false ∧ containsL old cs = false := by
        simpa [containsL, Bool.or_eq_false_iff] using hc
      simp only [removeAllAux, hcs.1, Bool.false_eq_true, if_false, List.cons.injEq,
        true_and]
      exact ih cs (Nat.le_of_succ_le_succ hl) hcs.2

theorem pyReplaceE_eq_self {s old : String} (h : pyIn old s = false) :
    pyReplaceE s old = s := by
  unfold pyReplaceE
  rw [removeAllAux_eq_self s.data.length s.data (Nat.le_refl _) h]

theorem dropWhile_eq_self_of_append {p : Char → Bool} {x y z : List Char}
    (hx : x.dropWhile p = x) (hxyz : x = y ++ z) : y.dropWhile p = y := by
  cases y with
  | nil => rfl
  | cons b bs =>
    have htw : x.takeWhile p = [] := by
      have h2 := List.takeWhile_append_dropWhile p x
      rw [hx] at h2
      exact List.self_eq_append_left.mp h2.symm
    have hpb : p b = false := by
      rw [hxyz, List.cons_append, List.takeWhile_cons] at htw
      by_cases hb : p b
      · rw [if_pos hb] at htw
        exact absurd htw (by simp)
      · simpa using hb
    rw [List.dropWhile_cons, hpb]
    simp

theorem stripChars_idem (l : List Char) : stripChars (stripChars l) = stripChars l := by
  unfold stripChars
  have hdx : (l.dropWhile isPySpace).dropWhile isPySpace = l.dropWhile isPySpace :=
    List.dropWhile_idempotent _ _
  have hsplit : l.dropWhile isPySpace =
      ((l.dropWhile isPySpace).reverse.dropWhile isPySpace).reverse ++
        ((l.dropWhile isPySpace).reverse.takeWhile isPySpace).reverse := by
    calc l.dropWhile isPySpace = (l.dropWhile isPySpace).reverse.reverse :=
          (List.reverse_reverse _).symm
    _ = ((l.dropWhile isPySpace).reverse.takeWhile isPySpace ++
          (l.dropWhile isPySpace).reverse.dropWhile isPySpace).reverse := by
        rw [List.takeWhile_append_dropWhile]
    _ = _ := by rw [List.reverse_append]
  have hdm := dropWhile_eq_self_of_append hdx hsplit
  rw [hdm, List.reverse_reverse, List.dropWhile_idempotent]

theorem pyStrip_idem (s : String) : pyStrip (pyStrip s) = pyStrip s := by
  unfold pyStrip
  rw [stripChars_idem]

theorem pyStrip_data (s : String) : (pyStrip s).data = stripChars s.data := rfl

theorem pyLower_data (s : String) : (pyLower s).data = s.data.map Char.toLower := rfl

theorem toNat_ofNat_valid (n : Nat) (h : Nat.isValidChar n) : (Char.ofNat n).toNat = n := by
  simp [Char.ofNat, h, Char.ofNatAux, Char.toNat, UInt32.toNat, BitVec.toNat_ofNatLt]

theorem toLower_idem (c : Char) : Char.toLower (Char.toLower c) = Char.toLower c := by
  unfold Char.toLower
  by_cases h : c.toNat ≥ 65 ∧ c.toNat ≤ 90
  · rw [if_pos h]
    have ht : (Char.ofNat (c.toNat + 32)).toNat = c.toNat + 32 :=
      toNat_ofNat_valid _ (Or.inl (by omega))
    rw [if_neg (by omega)]
  · rw [if_neg h, if_neg h]

theorem isPySpace_toLower (c : Char) : isPySpace (Char.toLower c) = isPySpace c := by
  unfold Char.toLower
  by_cases h : c.toNat ≥ 65 ∧ c.toNat ≤ 90
  · rw [if_pos h]
    have ht : (Char.ofNat (c.toNat + 32)).toNat = c.toNat + 32 :=
      toNat_ofNat_valid _ (Or.inl (by omega))
    have l1 : isPySpace (Char.ofNat (c.toNat + 32)) = false := by
      simp [isPySpace, ht]
      omega
    have l2 : isPySpace c = false := by
      simp [isPySpace]
      omega
    rw [l1, l2]
  · rw [if_neg h]

theorem stripChars_map_toLower (l : List Char) :
    stripChars (l.map Char.toLower) = (stripChars l).map Char.toLower := by
  have hfun : (isPySpace ∘ Char.toLower) = isPySpace := funext isPySpace_toLower
  unfold stripChars
  rw [List.dropWhile_map, hfun, ← List.map_reverse, List.dropWhile_map, hfun,
    ← List.map_reverse]

theorem pyLower_idem (s : String) : pyLower (pyLower s) = pyLower s := by
  have hfun : (Char.toLower ∘ Char.toLower) = Char.toLower := funext toLower_idem
  exact String.ext (by rw [pyLower_data, pyLower_data, List.map_map, hfun])

theorem pyStrip_pyLower (s : String) : pyStrip (pyLower s) = pyLower (pyStrip s) := by
  exact String.ext
    (by rw [pyStrip_data, pyLower_data, pyLower_data, pyStrip_data, stripChars_map_toLower])

/-- C1: every utterance containing "exit", "quit", "bye" or "goodbye" as a
substring is matched to the Exit intent (the exit predicate is tested before
all other predicates), `parse_and_execute` returns `False` with no capability
handler invoked on that turn, and the session loop transitions to
TERMINATED. -/
theorem exit_phrase_terminates (q : String) (rs : List String)
    (h : (pyIn "exit" q || pyIn "quit" q || pyIn "bye" q || pyIn "goodbye" q) = true) :
    match_intent q = .exit ∧
      parse_and_execute q rs = ⟨false, [], ["Goodbye. Have a nice day."]⟩ ∧
      sessionStep q rs = .terminated := by
  have hc : condExit q = true := h
  have hq : ¬(q = "") := by
    rintro rfl
    exact absurd hc (by decide)
  refine ⟨?_, ?_, ?_⟩
  · simp [match_intent, hc]
  · simp [parse_and_execute, hq, hc]
  · simp [sessionStep, parse_and_execute, hq, hc]

/-- C1 witness: the utterance "please quit now" terminates the session with
no handler invoked. -/
theorem exit_phrase_terminates_witness :
    match_intent "please quit now" = .exit ∧
      parse_and_execute "please quit now" [] =
        ⟨false, [], ["Goodbye. Have a nice day."]⟩ ∧
      sessionStep "please quit now" [] = .terminated :=
  exit_phrase_terminates "please quit now" [] (by decide)

/-- C2 counterexample: for the utterance "wikipedia" with an empty
clarification response, the code invokes the Wikipedia capability handler
with an empty (unresolved) required slot, so a handler can be invoked with
an unresolved required slot and there is no second clarification round. -/
theorem handler_invoked_with_empty_slot :
    (parse_and_execute "wikipedia" [""]).handlers = [.wikiLookup ""] ∧
      (parse_and_execute "wikipedia" [""]).spoken =
        ["What would you like me to search on Wikipedia?"] := by decide

/-- C2 amended: for each intent whose required slot is extracted from the
utterance (Wikipedia term, web-search query, song name), when extraction
yields empty the dispatcher issues exactly one clarification prompt and
re-acquires input exactly once; the handler is then invoked with the
re-acquired value even if it is still empty. -/
theorem single_clarification_round (q r : String) (rs : List String) :
    (condsBeforeWiki q = false → condWiki q = true → extract_wiki q = "" →
      parse_and_execute q (r :: rs) =
        ⟨true, [.wikiLookup r], ["What would you like me to search on Wikipedia?"]⟩) ∧
    (condsBeforeSearch q = false → condSearch q = true → extract_search q = "" →
      parse_and_execute q (r :: rs) =
        ⟨true, [.searchChrome r], ["What should I search for?"]⟩) ∧
    (condsBeforePlay q = false → condPlay q = true → extract_play q = "" →
      parse_and_execute q (r :: rs) =
        ⟨true, [.playSong r], ["Which song should I play?"]⟩) := by
  refine ⟨?_, ?_, ?_⟩
  · intro hb hw he
    simp only [condsBeforeWiki, Bool.or_eq_false_iff, and_assoc] at hb
    obtain ⟨h1, h2, h3, h4, h5⟩ := hb
    have hq : ¬(q = "") := by rintro rfl; exact absurd hw (by decide)
    simp [parse_and_execute, hq, h1, h2, h3, h4, h5, hw, he]
  · intro hb hw he
    simp only [condsBeforeSearch, condsBeforeWiki, Bool.or_eq_false_iff, and_assoc] at hb
    obtain ⟨h1, h2, h3, h4, h5, h6⟩ := hb
    have hq : ¬(q = "") := by rintro rfl; exact absurd hw (by decide)
    simp [parse_and_execute, hq, h1, h2, h3, h4, h5, h6, hw, he]
  · intro hb hw he
    simp only [condsBeforePlay, condsBeforeRecall, condsBeforeRemember, condsBeforeEmail,
      condsBeforeSearch, condsBeforeWiki, Bool.or_eq_false_iff, and_assoc] at hb
    obtain ⟨h1, h2, h3, h4, h5, h6, h7, h8, h9, h10, h11, h12⟩ := hb
    have hq : ¬(q = "") := by rintro rfl; exact absurd hw (by decide)
    simp [parse_and_execute, hq, h1, h2, h3, h4, h5, h6, h7, h8, h9, h10, h11, h12, hw, he]

/-- C2 amended witness: the utterance "play" with follow-up "imagine"
produces one clarification prompt and invokes the song handler with the
follow-up value. -/
theorem single_clarification_round_witness :
    parse_and_execute "play" ["imagine"] =
      ⟨true, [.playSong "imagine"], ["Which song should I play?"]⟩ :=
  (single_clarification_round "play" "imagine" []).2.2 (by decide) (by decide) (by decide)

/-- C3 counterexample: the empty utterance matches no keyword predicate and
the matcher maps it to FallbackSearch, yet `parse_and_execute` invokes no
handler on it (no web search with the full utterance), because the empty
guard precedes the cascade. -/
theorem empty_matches_none_no_handler :
    matchesSome "" = false ∧ match_intent "" = .fallbackSearch ∧
      (parse_and_execute "" []).handlers = [] := by decide

/-- C3 amended: the intent matcher is total and deterministic, an utterance
matching no keyword predicate is mapped to FallbackSearch, and every
non-empty such utterance is passed whole, unmodified, to the web-search
handler (the empty utterance is a no-op turn instead). -/
theorem fallback_full_utterance (q : String) (rs : List String) :
    (∃! i : Intent, match_intent q = i) ∧
    (matchesSome q = false → match_intent q = .fallbackSearch ∧
      (¬(q = "") → parse_and_execute q rs =
        ⟨true, [.searchChrome q],
          ["I did not understand exactly. I will search the web for you."]⟩)) := by
  constructor
  · exact ⟨match_intent q, rfl, fun i hi => hi.symm⟩
  · intro hm
    simp only [matchesSome, Bool.or_eq_false_iff, and_assoc] at hm
    obtain ⟨h1, h2, h3, h4, h5, h6, h7, h8, h9, h10, h11, h12, h13, h14⟩ := hm
    constructor
    · simp [match_intent, h1, h2, h3, h4, h5, h6, h7, h8, h9, h10, h11, h12, h13, h14]
    · intro hq
      simp [parse_and_execute, hq, h1, h2, h3, h4, h5, h6, h7, h8, h9, h10, h11, h12, h13,
        h14]

/-- C3 witness: the unmatched non-empty utterance "hello" is passed whole to
the web-search handler. -/
theorem fallback_full_utterance_witness :
    parse_and_execute "hello" [] =
      ⟨true, [.searchChrome "hello"],
        ["I did not understand exactly. I will search the web for you."]⟩ :=
  ((fallback_full_utterance "hello" []).2 (by decide)).2 (by decide)

/-- C4 counterexample: on the primary (voice) path a transcription " HI " is
returned as " hi " — lower-cased but not trimmed of surrounding whitespace,
contradicting the claim that both paths trim. -/
theorem voice_path_not_trimmed :
    take_command (.recognized " HI ") "" = " hi " ∧ ¬(pyStrip " hi " = " hi ") := by decide

/-- C4 amended: `take_command` always returns a string and lower-cases on
both paths; the returned utterance is additionally trimmed on every typed
fallback path, but the primary (voice) path does not trim. -/
theorem take_command_normalization (o : PrimaryResult) (typed : String) :
    pyLower (take_command o typed) = take_command o typed ∧
      ((∀ t, ¬(o = .recognized t)) →
        pyStrip (take_command o typed) = take_command o typed) := by
  constructor
  · cases o <;> simp [take_command, pyLower_idem]
  · intro ho
    cases o with
    | recognized t => exact absurd rfl (ho t)
    | waitTimeout => simp [take_command, pyStrip_pyLower, pyStrip_idem]
    | unknownValue => simp [take_command, pyStrip_pyLower, pyStrip_idem]
    | requestError => simp [take_command, pyStrip_pyLower, pyStrip_idem]
    | otherError => simp [take_command, pyStrip_pyLower, pyStrip_idem]

/-- C4 witness: on the timeout fallback with typed input "  OK  " the
returned utterance is trimmed. -/
theorem take_command_normalization_witness :
    pyStrip (take_command .waitTimeout "  OK  ") = take_command .waitTimeout "  OK  " :=
  (take_command_normalization .waitTimeout "  OK  ").2 (fun _ h => PrimaryResult.noConfusion h)

/-- C5 counterexample: a subject containing a tab — whitespace, but not a
space character — with "@" and "." still triggers the cross-slot override,
and no separate recipient prompt is issued, contradicting the claim's "no
whitespace" condition. -/
theorem email_override_despite_tab :
    pyIn "\t" "a@b\t.c" = true ∧ isPySpace '\t' = true ∧
      parse_and_execute "email" ["a@b\t.c", "hi", "x@y.z"] =
        ⟨true, [.sendEmail "a@b\t.c" "No subject" "hi"],
          ["What should be the subject?", "What should I say in the email?"]⟩ := by decide

/-- C5 amended: for the SendEmail intent, if the value obtained for the
subject slot contains "@" and "." and no space character (U+0020), it is
reinterpreted as the recipient and the subject is set to "No subject";
otherwise the recipient is acquired by a separate prompt. -/
theorem email_cross_slot_override (q r1 r2 r3 : String) (rs : List String)
    (hb : condsBeforeEmail q = false) (hc : condEmail q = true) :
    ((pyIn "@" r1 && pyIn "." r1 && !(pyIn " " r1)) = true →
      parse_and_execute q (r1 :: r2 :: r3 :: rs) =
        ⟨true, [.sendEmail r1 "No subject" r2],
          ["What should be the subject?", "What should I say in the email?"]⟩) ∧
    ((pyIn "@" r1 && pyIn "." r1 && !(pyIn " " r1)) = false →
      parse_and_execute q (r1 :: r2 :: r3 :: rs) =
        ⟨true, [.sendEmail (pyStrip r3) r1 r2],
          ["What should be the subject?", "What should I say in the email?",
           "Who should I send it to? Please type the email address."]⟩) := by
  simp only [condsBeforeEmail, condsBeforeSearch, condsBeforeWiki, Bool.or_eq_false_iff,
    and_assoc] at hb
  obtain ⟨h1, h2, h3, h4, h5, h6, h7⟩ := hb
  have hq : ¬(q = "") := by rintro rfl; exact absurd hc (by decide)
  constructor
  · intro hov
    simp [parse_and_execute, hq, h1, h2, h3, h4, h5, h6, h7, hc, hov]
  · intro hov
    simp [parse_and_execute, hq, h1, h2, h3, h4, h5, h6, h7, hc, hov]

/-- C5 witness: the scenario "send email" with follow-up subject
"alice@example.com" triggers the override and the handler receives
recipient "alice@example.com" and subject "No subject". -/
theorem email_cross_slot_override_witness :
    parse_and_execute "send email" ["alice@example.com", "hello there", "z"] =
      ⟨true, [.sendEmail "alice@example.com" "No subject" "hello there"],
        ["What should be the subject?", "What should I say in the email?"]⟩ :=
  (email_cross_slot_override "send email" "alice@example.com" "hello there" "z" []
    (by decide) (by decide)).1 (by decide)

/-- C6 counterexample: slot extraction is not idempotent — on the utterance
"searsearchch" one application of the web-search extraction yields "search"
(keyword removal concatenates a new occurrence of the keyword) and a second
application yields the empty string. -/
theorem extraction_not_idempotent :
    ¬(extract_search (extract_search "searsearchch") = extract_search "searsearchch") := by
  decide

/-- C6 amended: slot extraction is idempotent on every utterance whose
extracted value contains no trigger keyword of its intent; in general a
second application can differ, because removal can concatenate fragments
into a new keyword occurrence. -/
theorem extraction_idem_of_no_keyword (q : String) :
    (pyIn "wikipedia" (extract_wiki q) = false →
      extract_wiki (extract_wiki q) = extract_wiki q) ∧
    (pyIn "search" (extract_search q) = false →
      pyIn "google" (extract_search q) = false →
      extract_search (extract_search q) = extract_search q) ∧
    (pyIn "play" (extract_play q) = false →
      extract_play (extract_play q) = extract_play q) := by
  refine ⟨?_, ?_, ?_⟩
  · intro h
    show pyStrip (pyReplaceE (extract_wiki q) "wikipedia") = extract_wiki q
    rw [pyReplaceE_eq_self h]
    unfold extract_wiki
    exact pyStrip_idem _
  · intro hs hg
    have hsic : pyIn "search in chrome" (extract_search q) = false := by
      cases hx : pyIn "search in chrome" (extract_search q)
      · rfl
      · exact absurd (pyIn_trans (show pyIn "search" "search in chrome" = true by decide) hx)
          (by simp [hs])
    show pyStrip
        (pyReplaceE (pyReplaceE (pyReplaceE (extract_search q) "search in chrome") "search")
          "google") = extract_search q
    rw [pyReplaceE_eq_self hsic, pyReplaceE_eq_self hs, pyReplaceE_eq_self hg]
    unfold extract_search
    exact pyStrip_idem _
  · intro hp
    have hps : pyIn "play song" (extract_play q) = false := by
      cases hx : pyIn "play song" (extract_play q)
      · rfl
      · exact absurd (pyIn_trans (show pyIn "play" "play song" = true by decide) hx)
          (by simp [hp])
    show pyStrip (pyReplaceE (pyReplaceE (extract_play q) "play") "play song") = extract_play q
    rw [pyReplaceE_eq_self hp, pyReplaceE_eq_self hps]
    unfold extract_play
    exact pyStrip_idem _

/-- C6 witness: on "search for cats" the extracted value "for cats" contains
no trigger keyword and a second extraction leaves it unchanged. -/
theorem extraction_idem_witness :
    extract_search (extract_search "search for cats") = extract_search "search for cats" :=
  (extraction_idem_of_no_keyword "search for cats").2.1 (by decide) (by decide)

/-- C7: an empty utterance is a no-op turn — `parse_and_execute` returns
`True` (the session stays RUNNING), invokes no capability handler, and
speaks no message. -/
theorem empty_utterance_noop (rs : List String) :
    parse_and_execute "" rs = ⟨true, [], []⟩ := rfl

/-- C8: if either credential environment variable is absent or empty,
`send_email` reports the configuration error, returns `False`, and attempts
no SMTP connection. -/
theorem send_email_missing_credentials (u p : Option String) (toA subj body : String)
    (ok : Bool) (h : (envFalsy u || envFalsy p) = true) :
    send_email u p toA subj body ok =
      ⟨false,
        ["Email credentials are not configured. Please set EMAIL_USER and EMAIL_PASS environment variables."],
        false⟩ := by
  simp [send_email, h]

/-- C8 witness: with EMAIL_USER unset the handler fails without attempting
SMTP. -/
theorem send_email_missing_credentials_witness :
    send_email none (some "pw") "a@b.c" "s" "b" true =
      ⟨false,
        ["Email credentials are not configured. Please set EMAIL_USER and EMAIL_PASS environment variables."],
        false⟩ :=
  send_email_missing_credentials none (some "pw") "a@b.c" "s" "b" true (by decide)

/-- C9 counterexample: "remember the date" contains the substring
"remember" yet selects the TellDate branch, not the Remember branch,
because the date predicate is tested earlier. -/
theorem remember_with_earlier_keyword :
    pyIn "remember" "remember the date" = true ∧
      match_intent "remember the date" = .tellDate ∧
      (parse_and_execute "remember the date" []).handlers = [.tellDate] := by decide

/-- C9 amended: every utterance containing "remember" whose earlier
predicates all fail selects the Remember (save-a-note) branch; no utterance
containing "remember" ever selects RecallMemory (in particular "what do you
remember" saves a note); and RecallMemory is reachable only by utterances
containing "do you know anything" or "what did i tell you" that contain
neither "remember" nor any earlier trigger keyword. -/
theorem remember_branch_behavior :
    (∀ q r rs, condsBeforeRemember q = false → pyIn "remember" q = true →
      match_intent q = .remember ∧
        parse_and_execute q (r :: rs) =
          ⟨true, [.rememberNote r], ["What should I remember?"]⟩) ∧
    (∀ q, pyIn "remember" q = true → ¬(match_intent q = .recallMemory)) ∧
    (∀ q, match_intent q = .recallMemory →
      (pyIn "do you know anything" q || pyIn "what did i tell you" q) = true ∧
        pyIn "remember" q = false ∧ condsBeforeRecall q = false) := by
  have key : ∀ q, match_intent q = .recallMemory →
      (pyIn "do you know anything" q || pyIn "what did i tell you" q) = true ∧
        pyIn "remember" q = false ∧ condsBeforeRecall q = false := by
    intro q h
    unfold match_intent at h
    by_cases h1 : condExit q = true
    · rw [if_pos h1] at h; exact Intent.noConfusion h
    rw [if_neg h1] at h
    by_cases h2 : condTime q = true
    · rw [if_pos h2] at h; exact Intent.noConfusion h
    rw [if_neg h2] at h
    by_cases h3 : condDate q = true
    · rw [if_pos h3] at h; exact Intent.noConfusion h
    rw [if_neg h3] at h
    by_cases h4 : condName q = true
    · rw [if_pos h4] at h; exact Intent.noConfusion h
    rw [if_neg h4] at h
    by_cases h5 : condHelp q = true
    · rw [if_pos h5] at h; exact Intent.noConfusion h
    rw [if_neg h5] at h
    by_cases h6 : condWiki q = true
    · rw [if_pos h6] at h; exact Intent.noConfusion h
    rw [if_neg h6] at h
    by_cases h7 : condSearch q = true
    · rw [if_pos h7] at h; exact Intent.noConfusion h
    rw [if_neg h7] at h
    by_cases h8 : condEmail q = true
    · rw [if_pos h8] at h; exact Intent.noConfusion h
    rw [if_neg h8] at h
    by_cases h9 : condScreenshot q = true
    · rw [if_pos h9] at h; exact Intent.noConfusion h
    rw [if_neg h9] at h
    by_cases h10 : condCpu q = true
    · rw [if_pos h10] at h; exact Intent.noConfusion h
    rw [if_neg h10] at h
    by_cases h11 : condRemember q = true
    · rw [if_pos h11] at h; exact Intent.noConfusion h
    rw [if_neg h11] at h
    by_cases h12 : condRecall q = true
    swap
    · rw [if_neg h12] at h
      by_cases h13 : condPlay q = true
      · rw [if_pos h13] at h; exact Intent.noConfusion h
      rw [if_neg h13] at h
      by_cases h14 : condJoke q = true
      · rw [if_pos h14] at h; exact Intent.noConfusion h
      rw [if_neg h14] at h
      exact Intent.noConfusion h
    simp only [Bool.not_eq_true] at h1 h2 h3 h4 h5 h6 h7 h8 h9 h10 h11
    have h11' : pyIn "remember that" q = false ∧ pyIn "remember" q = false := by
      simpa [condRemember, Bool.or_eq_false_iff] using h11
    have h12' := h12
    simp only [condRecall, Bool.or_eq_true] at h12'
    refine ⟨?_, h11'.2, ?_⟩
    · rcases h12' with (ha | hb) | hc
      · simp [ha]
      · exact absurd
          (pyIn_trans (show pyIn "remember" "what do you remember" = true by decide) hb)
          (by simp [h11'.2])
      · simp [hc]
    · simp [condsBeforeRecall, condsBeforeRemember, condsBeforeEmail, condsBeforeSearch,
        condsBeforeWiki, h1, h2, h3, h4, h5, h6, h7, h8, h9, h10, h11]
  refine ⟨?_, ?_, key⟩
  · intro q r rs hb hr
    have hc : condRemember q = true := by simp [condRemember, hr]
    simp only [condsBeforeRemember, condsBeforeEmail, condsBeforeSearch, condsBeforeWiki,
      Bool.or_eq_false_iff, and_assoc] at hb
    obtain ⟨h1, h2, h3, h4, h5, h6, h7, h8, h9, h10⟩ := hb
    have hq : ¬(q = "") := by rintro rfl; exact absurd hr (by decide)
    constructor
    · simp [match_intent, h1, h2, h3, h4, h5, h6, h7, h8, h9, h10, hc]
    · simp [parse_and_execute, hq, h1, h2, h3, h4, h5, h6, h7, h8, h9, h10, hc]
  · intro q hrem hmi
    obtain ⟨_, hnot, _⟩ := key q hmi
    exact absurd hrem (by simp [hnot])

/-- C9 witness: "please remember this" selects the Remember branch and the
note handler receives the follow-up text. -/
theorem remember_branch_behavior_witness :
    match_intent "please remember this" = .remember ∧
      parse_and_execute "please remember this" ["milk"] =
        ⟨true, [.rememberNote "milk"], ["What should I remember?"]⟩ :=
  remember_branch_behavior.1 "please remember this" "milk" [] (by decide) (by decide)

/-- C10: after `remember_to_file note` succeeds, `read_memory` reports back
exactly the note stripped of surrounding whitespace when that stripped value
is non-empty, and reports that the memory file is empty when the note is
empty or whitespace-only. -/
theorem remember_roundtrip (note : String) (file : Option String) :
    (¬(pyStrip note = "") →
      read_memory (remember_to_file note file) =
        ["You asked me to remember the following:", pyStrip note]) ∧
    (pyStrip note = "" →
      read_memory (remember_to_file note file) = ["The memory file is empty."]) := by
  constructor
  · intro h
    simp [remember_to_file, read_memory, h]
  · intro h
    simp [remember_to_file, read_memory, h]

/-- C10 witness: remembering " buy milk " and recalling reports back
"buy milk". -/
theorem remember_roundtrip_witness :
    read_memory (remember_to_file " buy milk " none) =
      ["You asked me to remember the following:", "buy milk"] := by
  have h := (remember_roundtrip " buy milk " none).1 (by decide)
  rw [h]
  decide

end Alpha
